import Mathlib

/-!
Shallow embedding of the provider abstraction and response-normalization
layer of the `weather` CLI (Rust sources under `src/`).

Machine floats (`f64`) are embedded as exact rationals (`ℚ`): none of the
properties verified here depends on rounding behaviour.  Rust panics
(out-of-bounds indexing, `Option::unwrap` on `None`) are modelled by an
outer `Option`: `none` is a panic, `some (Except.error e)` a returned
classified error, `some (Except.ok v)` a normal return.
-/

namespace Weather

/-- Classified provider errors (`src/src/weather_providers/error.rs`),
extended with the `ParseDateTime` and generic `Error` variants referenced
by `src/src/weather_providers/weatherapi.rs`. Each constructor carries the
string payload used by its `Display` implementation. -/
inductive ProviderError where
  | Request : String → ProviderError
  | Parse : String → ProviderError
  | InvalidApiKey : String → ProviderError
  | InvalidLocation : String → ProviderError
  | Unexpected : String → ProviderError
  | ParseDateTime : String → ProviderError
  | Error : String → ProviderError
deriving DecidableEq, Repr

/-- A single apostrophe, used in several source error messages. -/
def apos : String := String.mk [Char.ofNat 39]

/-- Embedding of `Display` of `ProviderError` as generated by `thiserror` in
`src/src/weather_providers/error.rs` (the two variants absent from that
revision of the file carry their message unchanged). -/
def providerErrorMessage : ProviderError → String
  | .Request m => "API request failed: " ++ m
  | .Parse m => "Failed to parse API response: " ++ m
  | .InvalidApiKey m => "API key is missing or invalid for " ++ m
  | .InvalidLocation m =>
      "Location " ++ apos ++ m ++ apos ++ " is invalid or not found"
  | .Unexpected m => "An unexpected error occurred: " ++ m
  | .ParseDateTime m => m
  | .Error m => m

/-- Application-level errors (`src/src/errors.rs`), extended with the
`MissingApiKey` variant referenced by `src/src/provider_registry.rs`. -/
inductive AppError where
  | Config : String → AppError
  | Provider : String → AppError
  | NoProvider : AppError
  | InvalidProvider : String → AppError
  | InvalidDate : String → AppError
  | MissingApiKey : String → AppError
deriving DecidableEq, Repr

/-- A parsed timezone-aware instant (`chrono::DateTime<Utc>`) as produced
by parsing the `"YYYY-MM-DD HH:MM"` strings of the vendor. -/
structure DateTimeUtc where
  year : Nat
  month : Nat
  day : Nat
  hour : Nat
  minute : Nat
deriving DecidableEq, Repr

/-- Numeric value of two ASCII digit characters. -/
def twoDigits (a b : Char) : Nat := (a.toNat - 48) * 10 + (b.toNat - 48)

/-- Numeric value of four ASCII digit characters. -/
def fourDigits (a b c d : Char) : Nat :=
  ((a.toNat - 48) * 10 + (b.toNat - 48)) * 100 + twoDigits c d

/-- Gregorian leap-year test, as validated by `chrono`. -/
def isLeap (y : Nat) : Bool := (y % 4 == 0 && y % 100 != 0) || y % 400 == 0

/-- Number of days in a month, as validated by `chrono`. -/
def daysInMonth (y m : Nat) : Nat :=
  if m = 2 then (if isLeap y then 29 else 28)
  else if m = 4 ∨ m = 6 ∨ m = 9 ∨ m = 11 then 30
  else 31

/-- Embedding of `parse_local_datetime` (`src/src/weather_providers/weatherapi.rs`):
`NaiveDateTime::parse_from_str` with format `"%Y-%m-%d %H:%M"`, then
reinterpreted as UTC.  Embedded for the four-digit-year strings the vendor
emits; any malformed input yields the classified `ParseDateTime` error. -/
def parse_local_datetime (s : String) : Except ProviderError DateTimeUtc :=
  match s.data with
  | [y1, y2, y3, y4, s1, m1, m2, s2, d1, d2, s3, h1, h2, s4, n1, n2] =>
    if y1.isDigit ∧ y2.isDigit ∧ y3.isDigit ∧ y4.isDigit ∧
       m1.isDigit ∧ m2.isDigit ∧ d1.isDigit ∧ d2.isDigit ∧
       h1.isDigit ∧ h2.isDigit ∧ n1.isDigit ∧ n2.isDigit ∧
       s1 = Char.ofNat 45 ∧ s2 = Char.ofNat 45 ∧
       s3 = Char.ofNat 32 ∧ s4 = Char.ofNat 58 then
      let y := fourDigits y1 y2 y3 y4
      let mo := twoDigits m1 m2
      let da := twoDigits d1 d2
      let ho := twoDigits h1 h2
      let mi := twoDigits n1 n2
      if 1 ≤ mo ∧ mo ≤ 12 ∧ 1 ≤ da ∧ da ≤ daysInMonth y mo ∧
         ho ≤ 23 ∧ mi ≤ 59 then
        .ok ⟨y, mo, da, ho, mi⟩
      else
        .error (.ParseDateTime "Failed to parse datetime: input is out of range")
    else
      .error (.ParseDateTime "Failed to parse datetime: input contains invalid characters")
  | _ =>
      .error (.ParseDateTime "Failed to parse datetime: premature end of input")

/-- The canonical normalized weather record
(`WeatherData`, `src/src/weather_providers/mod.rs`). -/
structure WeatherData where
  location : String
  datetime : DateTimeUtc
  temp_c : ℚ
  humidity : ℚ
  pressure : ℚ
  condition : String
  wind_kph : ℚ
  wind_deg : ℚ
deriving DecidableEq, Repr

namespace Weatherapi

/-- Embedding of `ConditionFields` (`weatherapi.rs`); the flattened `extra` map of
ignored vendor fields is omitted. -/
structure ConditionFields where
  text : String
  icon : String
deriving DecidableEq, Repr

/-- Embedding of `DayCondition` (`weatherapi.rs`). -/
structure DayCondition where
  avgtemp_c : ℚ
  avghumidity : ℚ
  maxwind_kph : ℚ
  condition : ConditionFields
deriving DecidableEq, Repr

/-- Embedding of `HourCondition` (`weatherapi.rs`). -/
structure HourCondition where
  time : String
  temp_c : ℚ
  wind_kph : ℚ
  wind_degree : ℚ
  humidity : ℚ
  pressure_mb : ℚ
  condition : ConditionFields
deriving DecidableEq, Repr

/-- Embedding of `WeatherCondition` (`weatherapi.rs`). -/
structure WeatherCondition where
  last_updated : String
  temp_c : ℚ
  condition : ConditionFields
  wind_kph : ℚ
  wind_degree : ℚ
  humidity : ℚ
  pressure_mb : ℚ
deriving DecidableEq, Repr

/-- Embedding of `Location` (`weatherapi.rs`). -/
structure Location where
  name : String
  region : String
  country : String
deriving DecidableEq, Repr

/-- Embedding of `ForecastDay` (`weatherapi.rs`). -/
structure ForecastDay where
  date : String
  day : DayCondition
  hour : List HourCondition
deriving DecidableEq, Repr

/-- Embedding of `Forecast` (`weatherapi.rs`). -/
structure Forecast where
  forecastday : List ForecastDay
deriving DecidableEq, Repr

/-- The untagged `WeatherResponse` enum (`weatherapi.rs`). -/
inductive WeatherResponse where
  | Current : Location → WeatherCondition → WeatherResponse
  | History : Location → Forecast → WeatherResponse
deriving DecidableEq, Repr

/-- Embedding of `impl TryFrom<WeatherResponse> for WeatherData` (`weatherapi.rs`,
lines 81-123).  The `History` branch indexes `forecastday[0]` and
`hour[0]` with no emptiness guard; those out-of-bounds panics are
modelled as `none`. -/
def try_from : WeatherResponse → Option (Except ProviderError WeatherData)
  | .Current location current =>
      some (match parse_local_datetime current.last_updated with
        | .error e => .error e
        | .ok datetime =>
            .ok ⟨location.name ++ ", " ++ location.country, datetime,
                 current.temp_c, current.humidity, current.pressure_mb,
                 current.condition.text, current.wind_kph,
                 current.wind_degree⟩)
  | .History location forecast =>
      match forecast.forecastday with
      | [] => none
      | forecast_day :: _ =>
        match forecast_day.hour with
        | [] => none
        | first_hour :: _ =>
            some (match parse_local_datetime first_hour.time with
              | .error e => .error e
              | .ok datetime =>
                  .ok ⟨location.name ++ ", " ++ location.country, datetime,
                       forecast_day.day.avgtemp_c,
                       forecast_day.day.avghumidity,
                       first_hour.pressure_mb,
                       forecast_day.day.condition.text,
                       first_hour.wind_kph,
                       first_hour.wind_degree⟩)

/-- Base URL of the WeatherApi provider after `Url::parse`
normalization (a root path slash is appended by the `url` crate). -/
def weatherApiBaseUrl : String := "https://api.weatherapi.com/"

/-- The `WeatherApi` provider struct (`weatherapi.rs`). -/
structure WeatherApi where
  api_key : String
  base_url : String
deriving DecidableEq, Repr

/-- Embedding of `WeatherApi::new` (`weatherapi.rs`, lines 138-147): parses the fixed
base URL (which always succeeds), then fails with `InvalidApiKey` when
the key option is `None`; any present key — including the empty string —
is accepted. -/
def WeatherApi.new (api_key : Option String) : Except ProviderError WeatherApi :=
  match api_key with
  | none => .error (.InvalidApiKey "WeatherApi requires API_KEY")
  | some key => .ok ⟨key, weatherApiBaseUrl⟩

/-- The pre-network phase of `WeatherApi::get_weather` (`weatherapi.rs`,
lines 155-202): the empty-location check followed by construction of the
request URL that would be handed to the transport.  The `date` argument
is modelled by its `Display` rendering (`YYYY-MM-DD`). -/
def WeatherApi.get_weather_request (w : WeatherApi) (location : String)
    (date : Option String) : Except ProviderError String :=
  if location = "" then
    .error (.InvalidLocation location)
  else
    .ok (match date with
      | none =>
          w.base_url ++ "v1/current.json?key=" ++ w.api_key ++
            "&q=" ++ location ++ "&aqi=no"
      | some d =>
          w.base_url ++ "v1/history.json?key=" ++ w.api_key ++
            "&q=" ++ location ++ "&aqi=no&dt=" ++ d)

end Weatherapi

namespace Openweather

/-- Embedding of `Main` (`src/src/weather_providers/openweather.rs`). -/
structure Main where
  temp : ℚ
deriving DecidableEq, Repr

/-- Embedding of `WeatherCondition` (`openweather.rs`). -/
structure WeatherCondition where
  description : String
deriving DecidableEq, Repr

/-- Embedding of `Wind` (`openweather.rs`). -/
structure Wind where
  speed : ℚ
deriving DecidableEq, Repr

/-- Embedding of `WeatherResponse` (`openweather.rs`): the deserialized vendor shape.
Every field, `dt` included, is required by the serde derivation — a
response without `dt` fails deserialization before any mapping runs. -/
structure WeatherResponse where
  name : String
  dt : Int
  main : Main
  weather : List WeatherCondition
  wind : Wind
deriving DecidableEq, Repr

/-- The revision of `WeatherData` that `openweather.rs` in `src/`
constructs (five fields, a rendered timestamp, optional wind speed).
The `timestamp` field is represented by the epoch seconds of the instant
whose `Display` rendering the source stores; the rendering is injective,
so nothing verified here depends on the concrete string. -/
structure WeatherData where
  location : String
  timestamp : Int
  temp_c : ℚ
  condition : String
  wind_kph : Option ℚ
deriving DecidableEq, Repr

/-- Production base URL (`OPEN_WEATHER_API_URL`, `openweather.rs`). -/
def OPEN_WEATHER_API_URL : String := "https://api.openweathermap.org/"

/-- The `OpenWeather` provider struct (`openweather.rs`). -/
structure OpenWeather where
  api_key : String
  base_url : String
deriving DecidableEq, Repr

/-- Embedding of `OpenWeather::new` (`openweather.rs`, lines 37-42): infallible — it
stores whatever key string it is given, with no validation at all. -/
def OpenWeather.new (api_key : String) : OpenWeather :=
  ⟨api_key, OPEN_WEATHER_API_URL⟩

/-- Embedding of `OpenWeather::with_base_url` (`openweather.rs`). -/
def OpenWeather.with_base_url (w : OpenWeather) (base_url : String) : OpenWeather :=
  ⟨w.api_key, base_url⟩

/-- The pre-network phase of `OpenWeather::fetch` (`openweather.rs`,
lines 52-62): unconditionally builds the request URL that is handed to
the transport.  There is no location or key check on this path. -/
def OpenWeather.fetch_request (w : OpenWeather) (location : String)
    (_date : Option String) : Except ProviderError String :=
  .ok (w.base_url ++ "/data/2.5/weather?q=" ++ location ++
        "&appid=" ++ w.api_key ++ "&units=metric")

/-- Smallest epoch second representable by `chrono`
(`NaiveDateTime::MIN.timestamp()`). -/
def minTimestamp : Int := -8334601228800

/-- Largest epoch second representable by `chrono`
(`NaiveDateTime::MAX.timestamp()`). -/
def maxTimestamp : Int := 8210266876799

/-- Embedding of `chrono::DateTime::from_timestamp(secs, 0)`: `none` exactly when the
second count falls outside the representable range; otherwise the
instant, represented by its epoch seconds. -/
def from_timestamp (secs : Int) : Option Int :=
  if minTimestamp ≤ secs ∧ secs ≤ maxTimestamp then some secs else none

/-- The response-to-record mapping inside `OpenWeather::fetch`
(`openweather.rs`, lines 65-77).  Field initializers run in order:
`timestamp` calls `from_timestamp(dt, 0).unwrap()` — a panic (`none`)
when the timestamp is unrepresentable — and `condition` indexes
`weather[0]` with no emptiness guard — a panic (`none`) when the
condition list is empty.  `wind_kph` is the vendor speed in m/s times
3.6. -/
def map_response (resp : WeatherResponse) : Option WeatherData :=
  match from_timestamp resp.dt with
  | none => none
  | some t =>
    match resp.weather with
    | [] => none
    | w :: _ =>
        some ⟨resp.name, t, resp.main.temp, w.description,
              some (resp.wind.speed * (3.6 : ℚ))⟩

end Openweather

/-- Embedding of `ProviderRegistry` (`src/src/provider_registry.rs`): a map from
provider name to a shared provider handle, embedded as an association
list with at most one binding per key.  The provider type is a
parameter: the source stores `Arc<dyn WeatherProvider>` trait objects. -/
structure ProviderRegistry (P : Type) where
  providers : List (String × P)

/-- Embedding of `ProviderRegistry::new`. -/
def ProviderRegistry.new {P : Type} : ProviderRegistry P := ⟨[]⟩

/-- Embedding of `ProviderRegistry::register` (`provider_registry.rs`, lines 22-33):
`HashMap::insert` — an existing binding for the name is overwritten (the
source only logs a warning in that case). -/
def ProviderRegistry.register {P : Type} (r : ProviderRegistry P)
    (name : String) (p : P) : ProviderRegistry P :=
  ⟨(name, p) :: r.providers.filter (fun kv => kv.1 ≠ name)⟩

/-- Embedding of `ProviderRegistry::get` (`provider_registry.rs`, lines 36-38):
`HashMap::get` returning a cloned handle, `none` when absent. -/
def ProviderRegistry.get {P : Type} (r : ProviderRegistry P)
    (name : String) : Option P :=
  (r.providers.find? (fun kv => kv.1 = name)).map Prod.snd

/-- Embedding of `ProviderRegistry::list_providers` (`provider_registry.rs`,
lines 41-45): all registered names, sorted. -/
def ProviderRegistry.list_providers {P : Type} (r : ProviderRegistry P) :
    List String :=
  (r.providers.map Prod.fst).insertionSort (· ≤ ·)

/-- A sequence of `register` calls applied to a fresh registry, in call
order. -/
def applyRegisters {P : Type} (calls : List (String × P)) : ProviderRegistry P :=
  calls.foldl (fun r c => r.register c.1 c.2) ProviderRegistry.new

/-- Embedding of `ProviderSettings` (`src/src/config.rs`). -/
structure ProviderSettings where
  api_key : String
deriving DecidableEq, Repr

/-- Embedding of `Settings` (`src/src/config.rs`): the `providers` `HashMap` is
embedded as an association list of its entries. -/
structure Settings where
  default_provider : String
  providers : List (String × ProviderSettings)
deriving DecidableEq, Repr

/-- Embedding of `Settings::get_api_key` (`config.rs`, lines 32-38): the environment
variable `{NAME_UPPERCASE}_API_KEY` takes precedence over the
settings-file value.  The process environment is an explicit parameter
`env`. -/
def Settings.get_api_key (s : Settings) (env : String → Option String)
    (provider_name : String) : Option String :=
  match env (provider_name.toUpper ++ "_API_KEY") with
  | some key => some key
  | none => (s.providers.lookup provider_name).map ProviderSettings.api_key

/-- A provider handle as stored by `build_registry`: one of the two
concrete providers behind the `WeatherProvider` trait object. -/
inductive RegisteredProvider where
  | openweather : Openweather.OpenWeather → RegisteredProvider
  | weatherapi : Weatherapi.WeatherApi → RegisteredProvider
deriving DecidableEq, Repr

/-- Modelled from the spec: the fallible `OpenWeather::new(Option<String>)`
constructor that `build_registry` (`src/src/provider_registry.rs`,
line 57) calls with `.map_err(..)?` — that revision of the constructor is
not in `src/` (the `openweather.rs` revision there has an infallible
`new(String)`).  Per the spec, the API key is required and a missing key
fails construction immediately with `InvalidApiKey`, mirroring
`WeatherApi::new`. -/
def Openweather.OpenWeather.newChecked (api_key : Option String) :
    Except ProviderError Openweather.OpenWeather :=
  match api_key with
  | none => .error (.InvalidApiKey "OpenWeather requires API_KEY")
  | some key => .ok (Openweather.OpenWeather.new key)

/-- One iteration of the `build_registry` loop (`provider_registry.rs`,
lines 52-72) for a single configured provider name: a recognized name
constructs and registers its provider (a construction failure aborts the
whole build as `AppError::MissingApiKey`, via the `?` operator);
an unrecognized name is skipped with a warning. -/
def registerStep (env : String → Option String) (s : Settings)
    (r : ProviderRegistry RegisteredProvider) (name : String) :
    Except AppError (ProviderRegistry RegisteredProvider) :=
  if name = "openweather" then
    match Openweather.OpenWeather.newChecked (s.get_api_key env name) with
    | .error e => .error (.MissingApiKey (providerErrorMessage e))
    | .ok p => .ok (r.register name (.openweather p))
  else if name = "weatherapi" then
    match Weatherapi.WeatherApi.new (s.get_api_key env name) with
    | .error e => .error (.MissingApiKey (providerErrorMessage e))
    | .ok p => .ok (r.register name (.weatherapi p))
  else
    .ok r

/-- The `build_registry` loop (`provider_registry.rs`, lines 52-72) over
the configured provider names, threading the registry through
`registerStep`. -/
def registerProviders (env : String → Option String) (s : Settings) :
    List String → ProviderRegistry RegisteredProvider →
      Except AppError (ProviderRegistry RegisteredProvider)
  | [], r => .ok r
  | name :: rest, r =>
    match registerStep env s r name with
    | .error e => .error e
    | .ok r2 => registerProviders env s rest r2

/-- Embedding of `build_registry` (`provider_registry.rs`, lines 49-81): process every
configured provider name, then fail with the "No valid providers
configured" error when the resulting registry is empty. -/
def build_registry (env : String → Option String) (s : Settings) :
    Except AppError (ProviderRegistry RegisteredProvider) :=
  match registerProviders env s (s.providers.map Prod.fst) ProviderRegistry.new with
  | .error e => .error e
  | .ok r =>
      if r.list_providers.isEmpty then
        .error (.MissingApiKey "No valid providers configured")
      else
        .ok r

/-- The `fetch` capability of a provider as the application sees it
(`WeatherProvider` trait, `src/src/weather_providers/mod.rs`): a pure
model of the location/date to result behaviour.  The optional date
argument is modelled by its rendering. -/
def FetchFn : Type := String → Option String → Except ProviderError WeatherData

/-- Embedding of `WeatherApp` (`src/src/app.rs`). -/
structure WeatherApp where
  registry : ProviderRegistry FetchFn

/-- The message of the `InvalidProvider` error produced by
`WeatherApp::run` for an unknown provider name. -/
def invalidProviderMsg (provider_name : String) : String :=
  "Provider " ++ apos ++ provider_name ++ apos ++ " not found"

/-- Embedding of `WeatherApp::run` (`app.rs`, lines 17-33): resolve the provider by
exact name (absent → `InvalidProvider` naming the requested string,
no fetch performed), otherwise delegate to its `fetch` and wrap any
provider error into `AppError::InvalidDate` carrying its message. -/
def WeatherApp.run (app : WeatherApp) (provider_name location : String)
    (date : Option String) : Except AppError WeatherData :=
  match app.registry.get provider_name with
  | none => .error (.InvalidProvider (invalidProviderMsg provider_name))
  | some provider =>
    match provider location date with
    | .ok w => .ok w
    | .error e =>
        .error (.InvalidDate ("Failed to fetch weather: " ++ providerErrorMessage e))

/-- Embedding of `WeatherApp::provider_exist` (`app.rs`, lines 36-38). -/
def WeatherApp.provider_exist (app : WeatherApp) (name : String) : Bool :=
  (app.registry.get name).isSome

/-- Embedding of `WeatherApp::list` (`app.rs`, lines 41-43). -/
def WeatherApp.list (app : WeatherApp) : List String :=
  app.registry.list_providers

/-! ## Helper lemmas -/

lemma find?_filter_ne {P : Type} (l : List (String × P)) (n m : String)
    (hmn : m ≠ n) :
    (l.filter (fun kv => kv.1 ≠ n)).find? (fun kv => kv.1 = m) =
      l.find? (fun kv => kv.1 = m) := by
  induction l with
  | nil => rfl
  | cons kv rest ih =>
    by_cases hkv : kv.1 = n
    · have h1 : (decide (kv.1 ≠ n)) = false := by simp [hkv]
      have h2 : (decide (kv.1 = m)) = false := by
        simp [hkv]
        exact fun h => hmn h.symm
      simp only [List.filter_cons, h1, Bool.false_eq_true, if_false,
        List.find?_cons, h2, ih]
    · have h1 : (decide (kv.1 ≠ n)) = true := by simp [hkv]
      simp only [List.filter_cons, h1, if_true, List.find?_cons]
      cases hdm : decide (kv.1 = m) with
      | false => exact ih
      | true => rfl

lemma get_register {P : Type} (r : ProviderRegistry P) (n m : String) (p : P) :
    (r.register n p).get m = if m = n then some p else r.get m := by
  unfold ProviderRegistry.register ProviderRegistry.get
  by_cases hmn : m = n
  · subst hmn
    simp
  · have hd : (decide ((n, p).1 = m)) = false := by simp [Ne.symm hmn]
    simp only [List.find?_cons, hd, if_neg hmn]
    rw [find?_filter_ne r.providers n m hmn]

lemma lookup_append {β : Type} (a : String) (l₁ l₂ : List (String × β)) :
    (l₁ ++ l₂).lookup a =
      match l₁.lookup a with
      | some b => some b
      | none => l₂.lookup a := by
  induction l₁ with
  | nil => rfl
  | cons kv rest ih =>
    simp only [List.cons_append, List.lookup]
    cases h : (a == kv.1) <;> simp [ih]

lemma get_applyRegisters_from {P : Type} (calls : List (String × P))
    (name : String) :
    ∀ r : ProviderRegistry P,
      (calls.foldl (fun r c => r.register c.1 c.2) r).get name =
        match (calls.reverse).lookup name with
        | some p => some p
        | none => r.get name := by
  induction calls with
  | nil => intro r; rfl
  | cons c cs ih =>
    intro r
    simp only [List.foldl_cons, List.reverse_cons]
    rw [ih (r.register c.1 c.2), lookup_append]
    cases h : (cs.reverse).lookup name with
    | some p => rfl
    | none =>
      simp only [List.lookup]
      rw [get_register]
      cases hb : (name == c.1) <;> simp_all [beq_iff_eq]

/-! ## Sample inputs -/

/-- Sample vendor location block. -/
def sampleLocation : Weatherapi.Location := ⟨"London", "City of London", "UK"⟩

/-- Sample condition fields. -/
def sampleCondition : Weatherapi.ConditionFields := ⟨"Sunny", "icon.png"⟩

/-- Sample day-level aggregate whose maximum wind (50 kph) differs from
the wind of the first hour (10 kph). -/
def sampleDay : Weatherapi.DayCondition := ⟨20, 60, 50, sampleCondition⟩

/-- Sample first hourly entry. -/
def sampleHour : Weatherapi.HourCondition :=
  ⟨"2025-12-03 14:00", 19, 10, 180, 55, 1013, sampleCondition⟩

/-- Sample historical-shape response with one forecast day and one
hourly entry. -/
def sampleHistResp : Weatherapi.WeatherResponse :=
  .History sampleLocation ⟨[⟨"2025-12-03", sampleDay, [sampleHour]⟩]⟩

/-! ## Claims -/

/-- C7: after any sequence of `register` calls applied to a fresh
registry, `get` returns the most recently registered provider under each
name (last write wins), and `none` — never a failure — for any name that
was never registered: the lookup equals the first match in the reversed
call sequence. -/
theorem c7_registry_last_write_wins {P : Type} (calls : List (String × P))
    (name : String) :
    (applyRegisters calls).get name = (calls.reverse).lookup name := by
  unfold applyRegisters
  rw [get_applyRegisters_from]
  cases h : (calls.reverse).lookup name <;> rfl

/-- C1 (amended): the historical-shape mapping takes `observedAt` from
the timestamp of the first hour, temperature and humidity from the
day-level averages, pressure and wind direction from the first hour, the
condition from the day-level condition text — and the wind speed from
the `wind_kph` field of the **first hour** (not the day-level
`maxwind_kph`). -/
theorem c1_history_mapping (loc : Weatherapi.Location)
    (f : Weatherapi.Forecast) (fd : Weatherapi.ForecastDay)
    (rest : List Weatherapi.ForecastDay) (h : Weatherapi.HourCondition)
    (hrest : List Weatherapi.HourCondition) (t : DateTimeUtc)
    (hf : f.forecastday = fd :: rest) (hh : fd.hour = h :: hrest)
    (hp : parse_local_datetime h.time = .ok t) :
    Weatherapi.try_from (.History loc f) =
      some (.ok ⟨loc.name ++ ", " ++ loc.country, t,
                 fd.day.avgtemp_c, fd.day.avghumidity, h.pressure_mb,
                 fd.day.condition.text, h.wind_kph, h.wind_degree⟩) := by
  simp only [Weatherapi.try_from, hf, hh, hp]

/-- C1 witness: the amended mapping evaluated on the sample historical
response. -/
theorem c1_history_mapping_witness :
    Weatherapi.try_from sampleHistResp =
      some (.ok ⟨"London, UK", ⟨2025, 12, 3, 14, 0⟩, 20, 60, 1013,
                 "Sunny", 10, 180⟩) :=
  c1_history_mapping sampleLocation ⟨[⟨"2025-12-03", sampleDay, [sampleHour]⟩]⟩
    ⟨"2025-12-03", sampleDay, [sampleHour]⟩ [] sampleHour [] ⟨2025, 12, 3, 14, 0⟩
    rfl rfl rfl

/-- C1 counterexample: on the sample historical response the mapped wind
speed is the `wind_kph` of the first hour (10), not the day-level
`maxwind_kph` (50) — refuting the claim that `windSpeedKph` comes from
the day-level maximum wind field. -/
theorem c1_counterexample :
    (∃ r, Weatherapi.try_from sampleHistResp = some (.ok r) ∧
          r.wind_kph = 10) ∧
    sampleDay.maxwind_kph = 50 ∧ (10 : ℚ) ≠ 50 := by
  refine ⟨⟨⟨"London, UK", ⟨2025, 12, 3, 14, 0⟩, 20, 60, 1013, "Sunny", 10, 180⟩,
    ?_, rfl⟩, rfl, by norm_num⟩
  rfl

/-- C10: the historical-shape mapping panics (modelled as `none`) when
the forecast-day list is empty or the hour list of the first day is empty —
no classified `ProviderError` guards the indexing — and under the
non-emptiness precondition every list access is in bounds: the mapping
returns a value. -/
theorem c10_history_partiality :
    (∀ (loc : Weatherapi.Location) (f : Weatherapi.Forecast),
       f.forecastday = [] → Weatherapi.try_from (.History loc f) = none) ∧
    (∀ (loc : Weatherapi.Location) (f : Weatherapi.Forecast)
       (fd : Weatherapi.ForecastDay) (rest : List Weatherapi.ForecastDay),
       f.forecastday = fd :: rest → fd.hour = [] →
       Weatherapi.try_from (.History loc f) = none) ∧
    (∀ (loc : Weatherapi.Location) (f : Weatherapi.Forecast)
       (fd : Weatherapi.ForecastDay) (rest : List Weatherapi.ForecastDay)
       (h : Weatherapi.HourCondition) (hrest : List Weatherapi.HourCondition),
       f.forecastday = fd :: rest → fd.hour = h :: hrest →
       ∃ x, Weatherapi.try_from (.History loc f) = some x) := by
  refine ⟨fun loc f hf => ?_, fun loc f fd rest hf hh => ?_,
    fun loc f fd rest h hrest hf hh => ?_⟩
  · simp only [Weatherapi.try_from, hf]
  · simp only [Weatherapi.try_from, hf, hh]
  · simp only [Weatherapi.try_from, hf, hh]
    exact ⟨_, rfl⟩

/-- C10 witness: both empty-list panics and the in-bounds case evaluated
on concrete responses. -/
theorem c10_history_partiality_witness :
    Weatherapi.try_from (.History sampleLocation ⟨[]⟩) = none ∧
    Weatherapi.try_from
      (.History sampleLocation ⟨[⟨"2025-12-03", sampleDay, []⟩]⟩) = none ∧
    ∃ x, Weatherapi.try_from sampleHistResp = some x :=
  ⟨c10_history_partiality.1 sampleLocation ⟨[]⟩ rfl,
   c10_history_partiality.2.1 sampleLocation ⟨[⟨"2025-12-03", sampleDay, []⟩]⟩
     ⟨"2025-12-03", sampleDay, []⟩ [] rfl rfl,
   c10_history_partiality.2.2 sampleLocation ⟨[⟨"2025-12-03", sampleDay, [sampleHour]⟩]⟩
     ⟨"2025-12-03", sampleDay, [sampleHour]⟩ [] sampleHour [] rfl rfl⟩

/-- Sample OpenWeather vendor response with an in-range timestamp, a
non-empty condition list and wind speed 5 m/s. -/
def owSampleResp : Openweather.WeatherResponse :=
  ⟨"London", 1700000000, ⟨15⟩, [⟨"clear sky"⟩], ⟨5⟩⟩

/-- The record `map_response` produces for `owSampleResp`. -/
def owSampleData : Openweather.WeatherData :=
  ⟨"London", 1700000000, 15, "clear sky", some ((5 : ℚ) * 3.6)⟩

/-- Sample OpenWeather vendor response with an empty condition list. -/
def owEmptyWeatherResp : Openweather.WeatherResponse :=
  ⟨"London", 1700000000, ⟨15⟩, [], ⟨5⟩⟩

/-- Sample OpenWeather vendor response whose epoch timestamp
(`10^18` seconds) is far outside the range `chrono` can represent. -/
def owHugeDtResp : Openweather.WeatherResponse :=
  ⟨"London", 1000000000000000000, ⟨15⟩, [⟨"clear sky"⟩], ⟨5⟩⟩

/-- C2 (amended): `condition` is the description of the first element of
the vendor condition list when that list is non-empty (and the
timestamp is representable), but an empty condition list makes the
mapping panic on the out-of-bounds index `weather[0]` (modelled as
`none`) — there is no `"unknown"` fallback. -/
theorem c2_condition_mapping :
    (∀ (resp : Openweather.WeatherResponse) (w : Openweather.WeatherCondition)
       (ws : List Openweather.WeatherCondition),
       resp.weather = w :: ws →
       Openweather.minTimestamp ≤ resp.dt → resp.dt ≤ Openweather.maxTimestamp →
       ∃ d, Openweather.map_response resp = some d ∧
            d.condition = w.description) ∧
    (∀ resp : Openweather.WeatherResponse, resp.weather = [] →
       Openweather.map_response resp = none) := by
  constructor
  · intro resp w ws hw h1 h2
    simp only [Openweather.map_response, Openweather.from_timestamp,
      if_pos (And.intro h1 h2), hw]
    exact ⟨_, rfl, rfl⟩
  · intro resp hw
    simp only [Openweather.map_response, Openweather.from_timestamp, hw]
    by_cases hr : Openweather.minTimestamp ≤ resp.dt ∧
        resp.dt ≤ Openweather.maxTimestamp
    · rw [if_pos hr]
    · rw [if_neg hr]

/-- C2 witness: the non-empty case evaluated on the sample response. -/
theorem c2_condition_mapping_witness :
    ∃ d, Openweather.map_response owSampleResp = some d ∧
         d.condition = "clear sky" :=
  c2_condition_mapping.1 owSampleResp ⟨"clear sky"⟩ [] rfl (by decide) (by decide)

/-- C2 counterexample: on a response with an empty condition list the
mapping panics (`none`): no record — in particular none with condition
`"unknown"` — is produced, refuting the claimed total `"unknown"`
fallback. -/
theorem c2_counterexample :
    Openweather.map_response owEmptyWeatherResp = none ∧
    ¬ ∃ d, Openweather.map_response owEmptyWeatherResp = some d ∧
           d.condition = "unknown" := by
  constructor
  · rfl
  · rintro ⟨d, hd, -⟩
    rw [show Openweather.map_response owEmptyWeatherResp = none from rfl] at hd
    exact Option.noConfusion hd

/-- C3 (amended): `observedAt` is the vendor epoch timestamp converted
to a timezone-aware instant whenever that timestamp is representable,
but an out-of-range timestamp makes the mapping panic
(`Option::unwrap` on `None`, modelled as `none`) — the current time is
never substituted.  (A missing `dt` field fails serde deserialization of
the response before the mapping runs.) -/
theorem c3_timestamp_mapping :
    (∀ (resp : Openweather.WeatherResponse) (w : Openweather.WeatherCondition)
       (ws : List Openweather.WeatherCondition),
       resp.weather = w :: ws →
       Openweather.minTimestamp ≤ resp.dt → resp.dt ≤ Openweather.maxTimestamp →
       ∃ d, Openweather.map_response resp = some d ∧ d.timestamp = resp.dt) ∧
    (∀ resp : Openweather.WeatherResponse,
       resp.dt < Openweather.minTimestamp ∨ Openweather.maxTimestamp < resp.dt →
       Openweather.map_response resp = none) := by
  constructor
  · intro resp w ws hw h1 h2
    simp only [Openweather.map_response, Openweather.from_timestamp,
      if_pos (And.intro h1 h2), hw]
    exact ⟨_, rfl, rfl⟩
  · intro resp hout
    have hr : ¬ (Openweather.minTimestamp ≤ resp.dt ∧
        resp.dt ≤ Openweather.maxTimestamp) := by
      rcases hout with h | h
      · exact fun hc => absurd hc.1 (not_le.mpr h)
      · exact fun hc => absurd hc.2 (not_le.mpr h)
    simp only [Openweather.map_response, Openweather.from_timestamp, if_neg hr]

/-- C3 witness: the in-range case evaluated on the sample response. -/
theorem c3_timestamp_mapping_witness :
    ∃ d, Openweather.map_response owSampleResp = some d ∧
         d.timestamp = 1700000000 :=
  c3_timestamp_mapping.1 owSampleResp ⟨"clear sky"⟩ [] rfl (by decide) (by decide)

/-- C3 counterexample: on a response whose timestamp is out of the
representable range the mapping panics (`none`) — no record carrying
"now" (or anything else) is produced, refuting the claimed fallback to
the current time. -/
theorem c3_counterexample :
    Openweather.map_response owHugeDtResp = none := by
  rfl

/-- C6: every record the OpenWeather mapping produces has
`windSpeedKph = speed × 3.6` exactly (the vendor speed is in m/s), and
in particular a vendor speed of 5 maps to exactly 18. -/
theorem c6_wind_conversion :
    (∀ (resp : Openweather.WeatherResponse) (d : Openweather.WeatherData),
       Openweather.map_response resp = some d →
       d.wind_kph = some (resp.wind.speed * (3.6 : ℚ))) ∧
    (∀ (resp : Openweather.WeatherResponse) (d : Openweather.WeatherData),
       Openweather.map_response resp = some d → resp.wind.speed = 5 →
       d.wind_kph = some 18) := by
  have main : ∀ (resp : Openweather.WeatherResponse) (d : Openweather.WeatherData),
      Openweather.map_response resp = some d →
      d.wind_kph = some (resp.wind.speed * (3.6 : ℚ)) := by
    intro resp d h
    unfold Openweather.map_response at h
    cases hft : Openweather.from_timestamp resp.dt with
    | none => rw [hft] at h; exact Option.noConfusion h
    | some t =>
      rw [hft] at h
      cases hw : resp.weather with
      | nil => rw [hw] at h; exact Option.noConfusion h
      | cons w ws =>
        rw [hw] at h
        cases Option.some.inj h
        rfl
  refine ⟨main, fun resp d h h5 => ?_⟩
  rw [main resp d h, h5]
  norm_num

/-- C6 witness: the conversion evaluated at vendor speed 5 m/s. -/
theorem c6_wind_conversion_witness :
    owSampleData.wind_kph = some 18 :=
  c6_wind_conversion.2 owSampleResp owSampleData rfl rfl

/-- C4 (amended): the WeatherApi provider rejects an empty location with
`InvalidLocation` before building the request URL (for any date
argument), but the OpenWeather provider performs no location check at
all: its fetch builds and issues the request URL for every location,
the empty string included. -/
theorem c4_empty_location :
    (∀ (w : Weatherapi.WeatherApi) (date : Option String),
       w.get_weather_request "" date = .error (.InvalidLocation "")) ∧
    (∀ (w : Openweather.OpenWeather) (location : String) (date : Option String),
       ∃ u, w.fetch_request location date = .ok u) := by
  constructor
  · intro w date
    rfl
  · intro w location date
    exact ⟨_, rfl⟩

/-- C4 counterexample: the OpenWeather provider, fetched with an empty
location, hands a request URL to the transport instead of returning
`InvalidLocation` — refuting the claim for every provider. -/
theorem c4_counterexample :
    (Openweather.OpenWeather.new "key").fetch_request "" none =
      .ok "https://api.openweathermap.org//data/2.5/weather?q=&appid=key&units=metric" ∧
    (Openweather.OpenWeather.new "key").fetch_request "" none ≠
      .error (.InvalidLocation "") := by
  refine ⟨rfl, fun h => ?_⟩
  rw [show (Openweather.OpenWeather.new "key").fetch_request "" none =
      .ok "https://api.openweathermap.org//data/2.5/weather?q=&appid=key&units=metric"
    from rfl] at h
  exact Except.noConfusion h

/-- C5 (amended): `WeatherApi::new` fails with `InvalidApiKey` exactly
when the key is absent (`None`); any present key — the empty string
included — is accepted.  `OpenWeather::new` (the revision in `src/`)
performs no validation at all and always succeeds. -/
theorem c5_construction :
    (Weatherapi.WeatherApi.new none =
       .error (.InvalidApiKey "WeatherApi requires API_KEY")) ∧
    (∀ k, Weatherapi.WeatherApi.new (some k) =
       .ok ⟨k, Weatherapi.weatherApiBaseUrl⟩) ∧
    (∀ k, Openweather.OpenWeather.new k =
       ⟨k, Openweather.OPEN_WEATHER_API_URL⟩) :=
  ⟨rfl, fun _ => rfl, fun _ => rfl⟩

/-- C5 counterexample: an empty-string API key is accepted by
`WeatherApi::new`, and `OpenWeather::new` succeeds with an empty key as
well — construction with an empty key does not fail with
`InvalidApiKey`. -/
theorem c5_counterexample :
    Weatherapi.WeatherApi.new (some "") =
      .ok ⟨"", Weatherapi.weatherApiBaseUrl⟩ ∧
    Openweather.OpenWeather.new "" =
      ⟨"", Openweather.OPEN_WEATHER_API_URL⟩ :=
  ⟨rfl, rfl⟩

lemma lookup_isSome_of_mem_keys {β : Type} (l : List (String × β)) (n : String)
    (h : n ∈ l.map Prod.fst) : (l.lookup n).isSome := by
  induction l with
  | nil => simp at h
  | cons kv rest ih =>
    simp only [List.lookup]
    cases hb : (n == kv.1) with
    | true => rfl
    | false =>
      apply ih
      simp only [List.map_cons, List.mem_cons] at h
      rcases h with h | h
      · rw [h] at hb
        simp at hb
      · exact h

lemma get_api_key_isSome (s : Settings) (env : String → Option String)
    (n : String) (h : n ∈ s.providers.map Prod.fst) :
    (s.get_api_key env n).isSome := by
  unfold Settings.get_api_key
  cases env (n.toUpper ++ "_API_KEY") with
  | some k => rfl
  | none =>
    have hsome := lookup_isSome_of_mem_keys s.providers n h
    cases hl : s.providers.lookup n with
    | none =>
      rw [hl] at hsome
      exact absurd hsome (by simp)
    | some v =>
      rfl

lemma registerStep_openweather (env : String → Option String) (s : Settings)
    (r : ProviderRegistry RegisteredProvider) (k : String)
    (hk : s.get_api_key env "openweather" = some k) :
    registerStep env s r "openweather" =
      .ok (r.register "openweather"
            (.openweather (Openweather.OpenWeather.new k))) := by
  unfold registerStep
  rw [if_pos rfl, hk]
  rfl

lemma registerStep_weatherapi (env : String → Option String) (s : Settings)
    (r : ProviderRegistry RegisteredProvider) (k : String)
    (hk : s.get_api_key env "weatherapi" = some k) :
    registerStep env s r "weatherapi" =
      .ok (r.register "weatherapi"
            (.weatherapi ⟨k, Weatherapi.weatherApiBaseUrl⟩)) := by
  unfold registerStep
  rw [if_neg (by decide), if_pos rfl, hk]
  rfl

lemma registerStep_unknown (env : String → Option String) (s : Settings)
    (r : ProviderRegistry RegisteredProvider) (name : String)
    (hn1 : name ≠ "openweather") (hn2 : name ≠ "weatherapi") :
    registerStep env s r name = .ok r := by
  unfold registerStep
  rw [if_neg hn1, if_neg hn2]

lemma registerProviders_ok (env : String → Option String) (s : Settings) :
    ∀ (names : List String) (r : ProviderRegistry RegisteredProvider),
      (∀ n ∈ names, (s.get_api_key env n).isSome) →
      ∃ r2, registerProviders env s names r = .ok r2 ∧
        (r2.providers = [] ↔
          (r.providers = [] ∧
           ∀ n ∈ names, n ≠ "openweather" ∧ n ≠ "weatherapi")) := by
  intro names
  induction names with
  | nil =>
    intro r _
    exact ⟨r, rfl, by simp⟩
  | cons n rest ih =>
    intro r hkeys
    by_cases hn1 : n = "openweather"
    · subst hn1
      obtain ⟨k, hk⟩ := Option.isSome_iff_exists.mp
        (hkeys "openweather" (List.mem_cons_self _ _))
      obtain ⟨r2, heq, hiff⟩ :=
        ih (r.register "openweather"
              (.openweather (Openweather.OpenWeather.new k)))
          (fun m hm => hkeys m (List.mem_cons_of_mem _ hm))
      refine ⟨r2, ?_, ?_⟩
      · simp only [registerProviders, registerStep_openweather env s r k hk]
        exact heq
      · rw [hiff]
        constructor
        · rintro ⟨hr, -⟩
          exact absurd hr (by simp [ProviderRegistry.register])
        · rintro ⟨-, hall⟩
          exact absurd rfl (hall "openweather" (List.mem_cons_self _ _)).1
    · by_cases hn2 : n = "weatherapi"
      · subst hn2
        obtain ⟨k, hk⟩ := Option.isSome_iff_exists.mp
          (hkeys "weatherapi" (List.mem_cons_self _ _))
        obtain ⟨r2, heq, hiff⟩ :=
          ih (r.register "weatherapi"
                (.weatherapi ⟨k, Weatherapi.weatherApiBaseUrl⟩))
            (fun m hm => hkeys m (List.mem_cons_of_mem _ hm))
        refine ⟨r2, ?_, ?_⟩
        · simp only [registerProviders, registerStep_weatherapi env s r k hk]
          exact heq
        · rw [hiff]
          constructor
          · rintro ⟨hr, -⟩
            exact absurd hr (by simp [ProviderRegistry.register])
          · rintro ⟨-, hall⟩
            exact absurd rfl (hall "weatherapi" (List.mem_cons_self _ _)).2
      · obtain ⟨r2, heq, hiff⟩ :=
          ih r (fun m hm => hkeys m (List.mem_cons_of_mem _ hm))
        refine ⟨r2, ?_, ?_⟩
        · simp only [registerProviders, registerStep_unknown env s r n hn1 hn2]
          exact heq
        · rw [hiff]
          constructor
          · rintro ⟨hr, hall⟩
            refine ⟨hr, fun m hm => ?_⟩
            rcases List.mem_cons.mp hm with h | h
            · exact h ▸ ⟨hn1, hn2⟩
            · exact hall m h
          · rintro ⟨hr, hall⟩
            exact ⟨hr, fun m hm => hall m (List.mem_cons_of_mem _ hm)⟩

lemma list_providers_nil_iff {P : Type} (r : ProviderRegistry P) :
    r.list_providers.isEmpty = true ↔ r.providers = [] := by
  unfold ProviderRegistry.list_providers
  rw [List.isEmpty_iff_length_eq_zero, List.length_insertionSort,
    List.length_map, List.length_eq_zero]

lemma build_registry_of_ok (env : String → Option String) (s : Settings)
    (r2 : ProviderRegistry RegisteredProvider)
    (heq : registerProviders env s (s.providers.map Prod.fst)
      ProviderRegistry.new = .ok r2) :
    build_registry env s =
      if r2.list_providers.isEmpty then
        .error (.MissingApiKey "No valid providers configured")
      else
        .ok r2 := by
  unfold build_registry
  rw [heq]

/-- C8: `build_registry` fails with the `"No valid providers
configured"` error exactly when no configured provider name is a
recognized vendor identifier (every configured name has a resolvable API
key, since the settings-file value always exists for a configured entry;
unrecognized names are skipped with a warning, not errors); and a
settings object with exactly one recognized entry yields a registry
listing exactly one name. -/
theorem c8_build_registry (env : String → Option String) (s : Settings) :
    (build_registry env s =
        .error (.MissingApiKey "No valid providers configured") ↔
      ∀ kv ∈ s.providers, kv.1 ≠ "openweather" ∧ kv.1 ≠ "weatherapi") ∧
    (∀ name ps, s.providers = [(name, ps)] →
      name = "openweather" ∨ name = "weatherapi" →
      ∃ r, build_registry env s = .ok r ∧ r.list_providers.length = 1) := by
  obtain ⟨r2, heq, hiff⟩ :=
    registerProviders_ok env s (s.providers.map Prod.fst) ProviderRegistry.new
      (fun n hn => get_api_key_isSome s env n hn)
  have hmem : (∀ n ∈ s.providers.map Prod.fst,
      n ≠ "openweather" ∧ n ≠ "weatherapi") ↔
      ∀ kv ∈ s.providers, kv.1 ≠ "openweather" ∧ kv.1 ≠ "weatherapi" := by
    constructor
    · intro h kv hkv
      exact h kv.1 (List.mem_map_of_mem Prod.fst hkv)
    · rintro h n hn
      obtain ⟨kv, hkv, rfl⟩ := List.mem_map.mp hn
      exact h kv hkv
  constructor
  · rw [build_registry_of_ok env s r2 heq]
    by_cases hr2 : r2.providers = []
    · rw [if_pos ((list_providers_nil_iff r2).mpr hr2)]
      constructor
      · intro _
        exact hmem.mp (hiff.mp hr2).2
      · intro _
        rfl
    · rw [if_neg (fun h => hr2 ((list_providers_nil_iff r2).mp h))]
      constructor
      · intro h
        exact Except.noConfusion h
      · intro h
        exact absurd (hiff.mpr ⟨rfl, (hmem.mpr h)⟩) hr2
  · intro name ps hs hrec
    have hkey : (s.get_api_key env name).isSome :=
      get_api_key_isSome s env name (by rw [hs]; simp)
    obtain ⟨k, hk⟩ := Option.isSome_iff_exists.mp hkey
    have hmap : s.providers.map Prod.fst = [name] := by rw [hs]; rfl
    rcases hrec with h | h <;> subst h
    · have hreg : registerProviders env s (s.providers.map Prod.fst)
          ProviderRegistry.new =
          .ok (ProviderRegistry.new.register "openweather"
                (.openweather (Openweather.OpenWeather.new k))) := by
        rw [hmap]
        simp only [registerProviders,
          registerStep_openweather env s ProviderRegistry.new k hk]
      refine ⟨ProviderRegistry.new.register "openweather"
        (.openweather (Openweather.OpenWeather.new k)), ?_, rfl⟩
      have hne : ¬ ((ProviderRegistry.new.register "openweather"
          (RegisteredProvider.openweather
            (Openweather.OpenWeather.new k))).list_providers.isEmpty = true) := by
        rw [list_providers_nil_iff]
        simp [ProviderRegistry.register]
      rw [build_registry_of_ok env s _ hreg, if_neg hne]
    · have hreg : registerProviders env s (s.providers.map Prod.fst)
          ProviderRegistry.new =
          .ok (ProviderRegistry.new.register "weatherapi"
                (.weatherapi ⟨k, Weatherapi.weatherApiBaseUrl⟩)) := by
        rw [hmap]
        simp only [registerProviders,
          registerStep_weatherapi env s ProviderRegistry.new k hk]
      refine ⟨ProviderRegistry.new.register "weatherapi"
        (.weatherapi ⟨k, Weatherapi.weatherApiBaseUrl⟩), ?_, rfl⟩
      have hne : ¬ ((ProviderRegistry.new.register "weatherapi"
          (RegisteredProvider.weatherapi
            ⟨k, Weatherapi.weatherApiBaseUrl⟩)).list_providers.isEmpty = true) := by
        rw [list_providers_nil_iff]
        simp [ProviderRegistry.register]
      rw [build_registry_of_ok env s _ hreg, if_neg hne]

/-- A settings object configuring only the `weatherapi` provider. -/
def sampleSettings : Settings :=
  ⟨"weatherapi", [("weatherapi", ⟨"test_api_key"⟩)]⟩

/-- A settings object configuring only an unrecognized provider. -/
def unknownSettings : Settings :=
  ⟨"foo", [("foo", ⟨"test_api_key"⟩)]⟩

/-- An empty process environment. -/
def emptyEnv : String → Option String := fun _ => none

/-- C8 witness: with one valid configured provider the build returns a
one-entry registry; with only an unrecognized provider it fails with the
"No valid providers configured" error. -/
theorem c8_build_registry_witness :
    (∃ r, build_registry emptyEnv sampleSettings = .ok r ∧
          r.list_providers.length = 1) ∧
    build_registry emptyEnv unknownSettings =
      .error (.MissingApiKey "No valid providers configured") :=
  ⟨(c8_build_registry emptyEnv sampleSettings).2 "weatherapi" ⟨"test_api_key"⟩
      rfl (Or.inr rfl),
   (c8_build_registry emptyEnv unknownSettings).1.mpr (by decide)⟩

/-- C9: `run` on an unregistered provider name returns `InvalidProvider`
whose message names the requested string, independently of any
fetch behaviour of any provider (no fetch is consulted); on a
registered name it delegates to the fetch of that provider, and wraps
any `ProviderError` into the application-level `InvalidDate` error
carrying the message of the underlying error. -/
theorem c9_run_dispatch (app : WeatherApp) (name location : String)
    (date : Option String) :
    (app.registry.get name = none →
       app.run name location date =
         .error (.InvalidProvider (invalidProviderMsg name)) ∧
       ∃ pre post, invalidProviderMsg name = pre ++ name ++ post) ∧
    (∀ p : FetchFn, app.registry.get name = some p →
       app.run name location date =
         match p location date with
         | .ok w => .ok w
         | .error e =>
             .error (.InvalidDate
               ("Failed to fetch weather: " ++ providerErrorMessage e))) := by
  constructor
  · intro h
    refine ⟨?_, "Provider " ++ apos, apos ++ " not found", ?_⟩
    · unfold WeatherApp.run
      rw [h]
    · unfold invalidProviderMsg
      simp [String.append_assoc]
  · intro p h
    unfold WeatherApp.run
    rw [h]

/-- An application whose registry is empty. -/
def emptyApp : WeatherApp := ⟨ProviderRegistry.new⟩

/-- A mock provider whose fetch always fails with `InvalidLocation`. -/
def mockFetch : FetchFn := fun loc _ => .error (.InvalidLocation loc)

/-- An application with the single mock provider registered. -/
def mockApp : WeatherApp := ⟨ProviderRegistry.new.register "mock" mockFetch⟩

/-- C9 witness: `run("nonexistent", ...)` on an empty registry returns
`InvalidProvider` naming `"nonexistent"`, and `run` on a registered
provider wraps the error of the provider with its message. -/
theorem c9_run_dispatch_witness :
    emptyApp.run "nonexistent" "London" none =
      .error (.InvalidProvider (invalidProviderMsg "nonexistent")) ∧
    mockApp.run "mock" "London" none =
      .error (.InvalidDate ("Failed to fetch weather: " ++
        providerErrorMessage (.InvalidLocation "London"))) :=
  ⟨((c9_run_dispatch emptyApp "nonexistent" "London" none).1 rfl).1,
   (c9_run_dispatch mockApp "mock" "London" none).2 mockFetch rfl⟩

end Weather
